import Mathlib

/- Verification development for the Artisan-Agent video-assembly pipeline
   (src/artisan_agent/sub_agents/artisan_video).  Each definition is a shallow
   embedding of the corresponding Python function; durations and gains are
   modelled as rationals, prompts as lists of characters.  Effectful steps
   (subprocess invocations, blob-store transfers, file removal) are modelled by
   explicit environments that say which external call succeeds, and the code's
   control flow over them is reproduced exactly. -/

namespace ArtisanVideo

/- Section: string primitives used by the volume parser.
   Python's str.lower on the ASCII range; the keyword tables only contain
   ASCII, so this matches the source's prompt.lower() for the inputs the
   claims quantify over. -/

/-- Lowercase a prompt character-wise (Python prompt.lower(), ASCII range). -/
def lowerL (s : List Char) : List Char := s.map Char.toLower

/-- Boolean prefix test on character lists. -/
def isPre : List Char → List Char → Bool
  | [], _ => true
  | _ :: _, [] => false
  | a :: as, b :: bs => a == b && isPre as bs

/-- Boolean infix (substring) test: Python's membership test on str. -/
def hasSubL (n : List Char) : List Char → Bool
  | [] => isPre n []
  | l@(_ :: rest) => isPre n l || hasSubL n rest

/-- Substring test with a string-literal needle against a lowered prompt. -/
def hasSub (n : String) (h : List Char) : Bool := hasSubL n.data h

/-- Numeric value of an ASCII digit character. -/
def digitVal (c : Char) : Nat := c.toNat - 48

/- Section: the two regular-expression searches of _parse_volume_from_prompt,
   ffmpeg_mcp.py lines 374-397.  re.search(key + ".*?(\\d+)%", p) matches the
   first occurrence of the key that is followed - on the same line, since "."
   does not cross a newline - by a maximal digit run immediately followed by
   a percent sign; the captured group is that digit run.  The scanner below is
   the char-by-char automaton equivalent to that leftmost-match semantics. -/

/-- Scan for the first maximal digit run immediately followed by a percent
sign, failing at a newline; the accumulator holds the value of the current
run, if one is open. -/
def scanPct : Option Nat → List Char → Option Nat
  | _, [] => none
  | run, c :: rest =>
    if c = '\n' then none
    else if c.isDigit then scanPct (some (10 * run.getD 0 + digitVal c)) rest
    else if c = '%' then
      match run with
      | some v => some v
      | none => scanPct none rest
    else scanPct none rest

/-- Leftmost-occurrence search: find an occurrence of the key after which the
percent scan succeeds (Python re.search(key + ".*?(\\d+)%", p)). -/
def searchPct (key : List Char) : List Char → Option Nat
  | [] => none
  | s@(_ :: rest) =>
    if isPre key s then
      match scanPct none (s.drop key.length) with
      | some v => some v
      | none => searchPct key rest
    else searchPct key rest

/-- Collect a maximal digit run as (value, digit count): the fractional part
of a decimal literal. -/
def collectFrac : Nat → Nat → List Char → Nat × Nat
  | f, k, [] => (f, k)
  | f, k, c :: rest => if c.isDigit then collectFrac (10 * f + digitVal c) (k + 1) rest else (f, k)

/-- Scan for the first decimal literal of shape digits-star dot digits-plus
(Python re.search(key + ".*?(\\d*\\.\\d+)", p) after the key), failing at a
newline; the accumulator holds the value of the current integer-part run.  A
dot either completes a match (when a digit follows - for an empty integer
part the engine restarts at the dot itself, which the reset accumulator
models) or is skipped like any other non-digit character. -/
def scanDec : Nat → List Char → Option ℚ
  | _, [] => none
  | v, c :: rest =>
    if c = '\n' then none
    else if c.isDigit then scanDec (10 * v + digitVal c) rest
    else if c = '.' && (rest.headD ' ').isDigit then
      some ((v : ℚ) + ((collectFrac 0 0 rest).1 : ℚ) / (10 : ℚ) ^ (collectFrac 0 0 rest).2)
    else scanDec 0 rest

/-- Leftmost-occurrence search for a decimal value after the key. -/
def searchDec (key : List Char) : List Char → Option ℚ
  | [] => none
  | s@(_ :: rest) =>
    if isPre key s then
      match scanDec 0 (s.drop key.length) with
      | some v => some v
      | none => searchDec key rest
    else searchDec key rest

/- Section: the volume directive parser, ffmpeg_mcp.py lines 321-399.
   The Python function returns a dict with exactly the keys video, music and
   voiceover; the record below has exactly those three fields. -/

/-- Result of the volume parser: the three gain multipliers, one per channel
(the Python dict keys video, music, voiceover). -/
structure Volumes where
  video : ℚ
  music : ℚ
  voiceover : ℚ
deriving DecidableEq, Repr

/-- Categorical keyword rules for the music channel (lines 341-348); the last
branch keeps the default 0.4. -/
def musicKw (p : List Char) : ℚ :=
  if hasSub "loud music" p || hasSub "high music" p then 0.6
  else if hasSub "quiet music" p || hasSub "soft music" p || hasSub "low music" p then 0.2
  else if hasSub "medium music" p || hasSub "moderate music" p then 0.4
  else if hasSub "no music" p || hasSub "mute music" p then 0.0
  else 0.4

/-- Categorical keyword rules for the voiceover channel (lines 356-363);
default 1.0. -/
def voiceKw (p : List Char) : ℚ :=
  if hasSub "loud voice" p || hasSub "clear voice" p || hasSub "prominent voice" p then 1.2
  else if hasSub "quiet voice" p || hasSub "soft voice" p || hasSub "low voice" p then 0.7
  else if hasSub "medium voice" p || hasSub "moderate voice" p then 1.0
  else if hasSub "no voice" p || hasSub "mute voice" p then 0.0
  else 1.0

/-- Categorical keyword rules for the video-audio channel (lines 366-371);
default 0.3. -/
def videoKw (p : List Char) : ℚ :=
  if hasSub "loud video" p || hasSub "keep video audio" p then 0.8
  else if hasSub "quiet video" p || hasSub "mute video" p || hasSub "no video audio" p then 0.0
  else if hasSub "medium video" p then 0.5
  else 0.3

/-- Per-channel numeric overrides, applied after the keyword rules: the
percentage pattern sets the gain to n/100 and the decimal pattern, applied
afterwards, overrides it again (lines 374-397 run the percentage blocks first
and then the decimal blocks, each assignment replacing the channel's value, so
a decimal match wins over a percentage match on the same channel). -/
def overrideGain (pct : Option Nat) (dec : Option ℚ) (base : ℚ) : ℚ :=
  match dec with
  | some q => q
  | none =>
    match pct with
    | some n => (n : ℚ) / 100
    | none => base

/-- The volume parser (Python _parse_volume_from_prompt; the leading
underscore of the source name is dropped because Lean reserves it): keyword
rules first, then percentage overrides, then decimal overrides, each channel
independent; the result always has exactly the three channels of `Volumes`. -/
def parse_volume_from_prompt (prompt : List Char) : Volumes :=
  let p := lowerL prompt
  ⟨overrideGain (searchPct ("video".data) p) (searchDec ("video".data) p) (videoKw p),
   overrideGain (searchPct ("music".data) p) (searchDec ("music".data) p) (musicKw p),
   overrideGain (searchPct ("voice".data) p) (searchDec ("voice".data) p) (voiceKw p)⟩

/- Section: media probe, ffmpeg_mcp.py lines 29-80.  get_audio_duration and
   get_video_duration run ffprobe, parse its JSON, and read
   data['format']['duration'].  The except clause catches exactly
   (subprocess.CalledProcessError, KeyError, ValueError); everything the body
   can raise is enumerated below, with the Python class hierarchy recorded in
   probeCaught (json.JSONDecodeError is a subclass of ValueError and is
   caught; FileNotFoundError - raised by subprocess.run when the ffprobe
   binary does not exist - is a subclass of OSError, outside the tuple, and
   TypeError - raised by float() on a non-string non-number - is outside the
   tuple as well). -/

/-- Exception classes the body of the probe functions can raise. -/
inductive ProbeErr
  | calledProcessError
  | fileNotFoundError
  | jsonDecodeError
  | keyError
  | valueError
  | typeError
deriving DecidableEq, Repr

/-- Outcome of running ffprobe and parsing its output on a given path:
either a parsed duration or one of the exception classes. -/
inductive ProbeOutcome
  | ok (d : ℚ)
  | fail (e : ProbeErr)
deriving DecidableEq, Repr

/-- Membership of each exception class in the caught tuple
(subprocess.CalledProcessError, KeyError, ValueError). -/
def probeCaught : ProbeErr → Bool
  | .calledProcessError => true
  | .keyError => true
  | .valueError => true
  | .jsonDecodeError => true
  | .fileNotFoundError => false
  | .typeError => false

/-- get_audio_duration (lines 29-55): caught failures return the default
30.0 seconds; anything else propagates. -/
def get_audio_duration : ProbeOutcome → Except ProbeErr ℚ
  | .ok d => .ok d
  | .fail e => if probeCaught e then .ok 30 else .error e

/-- get_video_duration (lines 57-80): caught failures return the default
15.0 seconds; anything else propagates. -/
def get_video_duration : ProbeOutcome → Except ProbeErr ℚ
  | .ok d => .ok d
  | .fail e => if probeCaught e then .ok 15 else .error e

/- Section: file names.  tempfile.mktemp returns a fresh path for every call;
   the constructors below record the provenance of each local file the
   pipeline handles, with the per-call counter standing for freshness. -/

/-- Local file names handled by the pipeline: caller-supplied inputs,
download temporaries, the per-fold transition outputs (mktemp suffix
_transition_i.mp4), and the mixdown output (mktemp suffix _stitched.mp4). -/
inductive Path
  | input (s : String)
  | downloadTemp (i : Nat)
  | transitionTemp (i : Nat)
  | stitchedTemp
deriving DecidableEq, Repr

/- Section: transition compositor, ffmpeg_mcp.py lines 104-168
   (concatenate_videos_with_transition).  Each fold step emits one ffmpeg
   invocation whose filter graph is
   xfade=transition=T:duration=D:offset=O on the video streams and
   acrossfade=d=D on the audio streams; the command below records exactly the
   parameters interpolated into that filter string. -/

/-- One ffmpeg invocation of the concatenation fold: inputs, the xfade
transition parameters, and the output temporary. -/
structure FFCmd where
  in1 : Path
  in2 : Path
  ttype : String
  tdur : ℚ
  toff : ℚ
  out : Path
deriving DecidableEq, Repr

/-- The progressive fold of lines 139-165: repeatedly combine the current
accumulated video with the next clip into the fresh temporary
_transition_i.mp4. Returns the final accumulated path and the emitted
commands in order. -/
def concatFold (ttype : String) (tdur toff : ℚ) :
    Path → List Path → Nat → Path × List FFCmd
  | cur, [], _ => (cur, [])
  | cur, v :: vs, i =>
    let out := Path.transitionTemp i
    let step := concatFold ttype tdur toff out vs (i + 1)
    (step.1, ⟨cur, v, ttype, tdur, toff, out⟩ :: step.2)

/-- concatenate_videos_with_transition (lines 104-168): fewer than one video
raises ValueError (the spec's InsufficientInput); exactly one video is
returned as-is with no command emitted; otherwise the left-to-right fold
runs, starting from the first video. -/
def concatenate_videos_with_transition (videoPaths : List Path) (ttype : String)
    (tdur toff : ℚ) : Except String (Path × List FFCmd) :=
  match videoPaths with
  | [] => .error "At least 1 video path is required"
  | [v] => .ok (v, [])
  | v :: rest => .ok (concatFold ttype tdur toff v rest 1)

/-- Duration of an xfade output: the transition starts at the fixed offset
into the first input and the remainder of the second input follows, so the
output lasts offset + duration(second input) (valid whenever the first input
reaches past offset + transition duration). -/
def xfadeOutDur (toff d2 : ℚ) : ℚ := toff + d2

/-- Modelled from the spec: the claim's junction placement - a crossfade of
duration d joining two clips at the end of the accumulated video starts at
accumulated-duration minus d, and the joined output lasts
d1 + d2 - d.  Used only to compare the claimed placement with the code. -/
def junctionOffset (accDur tdur : ℚ) : ℚ := accDur - tdur

/-- Modelled from the spec: output duration of a junction-placed crossfade
join of two clips. -/
def junctionOutDur (d1 d2 tdur : ℚ) : ℚ := d1 + d2 - tdur

/- Section: audio mixdown stage, ffmpeg_mcp.py lines 170-319
   (stitch_video_with_audio).  The filter graphs of the three branches are
   recorded as a list of audio chains (one per amix input, in amix order);
   each chain records the atrim window, the volume gain, and the afade-out
   window exactly as interpolated into the filter_complex strings. -/

/-- Source stream of an audio chain in the filter graph: the video's own
audio track, the background-music file, or the voiceover file. -/
inductive StreamSrc
  | videoNative
  | music
  | voiceover
deriving DecidableEq, Repr

/-- One audio filter chain of the mixdown filter graph: optional
atrim=a:b window, volume gain, optional afade=t=out:st=s:d=d window. -/
structure AChain where
  src : StreamSrc
  trim : Option (ℚ × ℚ)
  vol : ℚ
  fade : Option (ℚ × ℚ)
deriving DecidableEq, Repr

/-- Result of the mixdown stage: the returned path, how many times the video
and audio probes ran, the amix input chains in order, and whether the
-shortest output flag is passed. -/
structure StitchPlan where
  result : Path
  videoProbeCalls : Nat
  audioProbeCalls : Nat
  chains : List AChain
  shortest : Bool
deriving DecidableEq, Repr

/-- Durations the probes report during the mixdown: get_video_duration of the
input video and get_audio_duration of the music file. -/
structure StitchEnv where
  videoDur : ℚ
  musicDur : ℚ
deriving DecidableEq, Repr

/-- Fade-duration selection of the music+voiceover branch (lines 220-225):
keyword-chosen ratio of the effective duration, capped by an absolute
maximum. -/
def kwFade (prompt : List Char) (effectiveDuration : ℚ) : ℚ :=
  let p := lowerL prompt
  if hasSub "dramatic fade" p || hasSub "long fade" p || hasSub "slow fade" p then
    min 8 (effectiveDuration * 0.4)
  else if hasSub "quick fade" p || hasSub "fast fade" p then
    min 2 (effectiveDuration * 0.2)
  else
    min 5 (effectiveDuration * 0.3)

/-- stitch_video_with_audio (lines 170-319).  No audio: the input video is
returned unchanged and nothing is probed.  Otherwise the video duration is
probed once up front (line 201) and each branch builds its filter graph:
both tracks (lines 211-255), music only (lines 257-293, fade ratio fixed at
0.3 with cap 5.0 - line 266 has no keyword check), voiceover only (lines
295-315, with the -shortest flag). -/
def stitch_video_with_audio (env : StitchEnv) (videoPath : Path)
    (backgroundMusicPath voiceoverPath : Option Path) (prompt : List Char) : StitchPlan :=
  match backgroundMusicPath, voiceoverPath with
  | none, none => ⟨videoPath, 0, 0, [], false⟩
  | some _, some _ =>
    let videoDuration := env.videoDur
    let volumes := parse_volume_from_prompt prompt
    let effectiveDuration := min env.musicDur videoDuration
    let fadeDuration := kwFade prompt effectiveDuration
    let fadeStart := max 0 (effectiveDuration - fadeDuration)
    let musicChain : AChain :=
      if fadeDuration < effectiveDuration then
        ⟨.music, some (0, videoDuration), volumes.music, some (fadeStart, fadeDuration)⟩
      else
        ⟨.music, some (0, videoDuration), volumes.music, none⟩
    ⟨.stitchedTemp, 1, 1,
      [⟨.videoNative, none, volumes.video, none⟩, musicChain,
       ⟨.voiceover, some (0, videoDuration), volumes.voiceover, none⟩],
      false⟩
  | some _, none =>
    let videoDuration := env.videoDur
    let volumes := parse_volume_from_prompt prompt
    let effectiveDuration := min env.musicDur videoDuration
    let fadeDuration := min 5 (effectiveDuration * 0.3)
    let fadeStart := max 0 (effectiveDuration - fadeDuration)
    let musicChain : AChain :=
      if fadeDuration < effectiveDuration then
        ⟨.music, some (0, videoDuration), volumes.music, some (fadeStart, fadeDuration)⟩
      else
        ⟨.music, some (0, videoDuration), volumes.music, none⟩
    ⟨.stitchedTemp, 1, 1,
      [⟨.videoNative, none, volumes.video, none⟩, musicChain],
      false⟩
  | none, some _ =>
    let videoDuration := env.videoDur
    let volumes := parse_volume_from_prompt prompt
    ⟨.stitchedTemp, 1, 0,
      [⟨.videoNative, none, volumes.video, none⟩,
       ⟨.voiceover, some (0, videoDuration), volumes.voiceover, none⟩],
      true⟩

/-- Duration of the stream a chain feeds into amix, given the native duration
of its source: atrim=0:b caps it at b. -/
def chainLen (native : ℚ) (c : AChain) : ℚ :=
  match c.trim with
  | some (_, b) => min native b
  | none => native

/-- Container duration of the muxed output: the video stream is copied
unchanged; amix with duration=first makes the mixed audio last as long as
its first input chain; -shortest caps the container at the shorter stream,
otherwise the container lasts as long as the longer stream. -/
def planOutDur (plan : StitchPlan) (native : StreamSrc → ℚ) : ℚ :=
  let vlen := native .videoNative
  let alen :=
    match plan.chains with
    | [] => vlen
    | c :: _ => chainLen (native c.src) c
  if plan.shortest then min vlen alen else max vlen alen

/-- Whether a chain draws from the background-music stream. -/
def isMusicChain (c : AChain) : Bool :=
  match c.src with
  | .music => true
  | _ => false

/-- The music chain's fade window in a mixdown plan, when a music chain is
present. -/
def musicFadeOf (plan : StitchPlan) : Option (Option (ℚ × ℚ)) :=
  (plan.chains.find? isMusicChain).map AChain.fade

/- Section: pipeline orchestrator, agent.py lines 261-389
   (process_videos_with_ffmpeg_mcp).  Inputs are local paths or gs:// URIs;
   the run downloads remote inputs, validates local ones, concatenates,
   stitches, uploads, and removes the recorded temp_files.  The environment
   says which external call succeeds; the run result records the terminal
   status, every temporary file the run created, the temp_files list the code
   recorded, and the files actually removed. -/

/-- A video/audio location passed to the orchestrator: a gs:// URI (the code
tests startswith("gs://")) or a local path. -/
inductive VUri
  | remote (s : String)
  | loc (s : String)
deriving DecidableEq, Repr

/-- Success or failure of the external calls a run makes: the nth download,
existence of a caller-supplied local path, the nth ffmpeg invocation, and the
final upload. -/
structure OEnv where
  dlOk : Nat → Bool
  locExists : String → Bool
  ffOk : Nat → Bool
  upOk : Bool

/-- Mutable state threaded through a run: files created so far, the
temp_files list the code records, and the counters of downloads and ffmpeg
invocations made so far. -/
structure St where
  created : List Path
  temps : List Path
  dlIdx : Nat
  ffIdx : Nat
deriving DecidableEq, Repr

/-- An abandoned run: detail message, whether it was raised (and is caught by
the outer except, which prefixes the detail) or returned as a typed error
dict, and the state at that point.  In both cases the code returns without
running the cleanup loop. -/
def OFail := String × Bool × St

/-- Resolve the list of video locations (agent.py lines 290-304): download
each gs:// URI to a fresh temporary recorded in temp_files, pass local paths
through, and fail typed when a local path does not exist.  A failed download
raises. -/
def resolveVids (env : OEnv) : List VUri → St → Except OFail (List Path × St)
  | [], st => .ok ([], st)
  | u :: us, st =>
    match u with
    | .remote _ =>
      if env.dlOk st.dlIdx then
        let p := Path.downloadTemp st.dlIdx
        let st1 : St := ⟨st.created ++ [p], st.temps ++ [p], st.dlIdx + 1, st.ffIdx⟩
        match resolveVids env us st1 with
        | .ok (ps, st2) => .ok (p :: ps, st2)
        | .error e => .error e
      else .error ("Download failed", true, ⟨st.created, st.temps, st.dlIdx + 1, st.ffIdx⟩)
    | .loc s =>
      if env.locExists s then
        match resolveVids env us st with
        | .ok (ps, st2) => .ok (Path.input s :: ps, st2)
        | .error e => .error e
      else .error ("Video file not found: " ++ s, false, st)

/-- Resolve one optional audio location (agent.py lines 306-328), same rules
as the videos. -/
def resolveOpt (env : OEnv) (kind : String) :
    Option VUri → St → Except OFail (Option Path × St)
  | none, st => .ok (none, st)
  | some (.remote _), st =>
    if env.dlOk st.dlIdx then
      let p := Path.downloadTemp st.dlIdx
      .ok (some p, ⟨st.created ++ [p], st.temps ++ [p], st.dlIdx + 1, st.ffIdx⟩)
    else .error ("Download failed", true, ⟨st.created, st.temps, st.dlIdx + 1, st.ffIdx⟩)
  | some (.loc s), st =>
    if env.locExists s then .ok (some (Path.input s), st)
    else .error (kind ++ " file not found: " ++ s, false, st)

/-- The concatenation fold as run by the orchestrator: each step invokes
ffmpeg; on success the fresh _transition_i.mp4 output joins the created set
(but not temp_files), on failure run_ffmpeg_command raises RuntimeError. -/
def concatRun (env : OEnv) : Path → List Path → Nat → St → Except OFail (Path × St)
  | cur, [], _, st => (.ok (cur, st))
  | _, _ :: vs, i, st =>
    if env.ffOk st.ffIdx then
      let out := Path.transitionTemp i
      concatRun env out vs (i + 1) ⟨st.created ++ [out], st.temps, st.dlIdx, st.ffIdx + 1⟩
    else .error ("Failed to apply transition", true, ⟨st.created, st.temps, st.dlIdx, st.ffIdx + 1⟩)

/-- Steps 1-3 of the orchestrator body (agent.py lines 288-369), inside the
try block: resolve all inputs, concatenate when more than one video,
stitch when any audio resolved (appending each produced file to temp_files),
and upload.  Returns the final local path, or the first failure. -/
def pipelineBody (env : OEnv) (videoUris : List VUri) (narrationPath musicPath : Option VUri) :
    Except OFail (Path × St) :=
  match resolveVids env videoUris ⟨[], [], 0, 0⟩ with
  | .error e => .error e
  | .ok (localVideos, st1) =>
    match resolveOpt env "Narration" narrationPath st1 with
    | .error e => .error e
    | .ok (localNarr, st2) =>
      match resolveOpt env "Music" musicPath st2 with
      | .error e => .error e
      | .ok (localMusic, st3) =>
        let afterConcat : Except OFail (Path × St) :=
          match localVideos with
          | [] => .error ("No video URIs provided", false, st3)
          | [v] => .ok (v, st3)
          | v :: vs =>
            match concatRun env v vs 1 st3 with
            | .error e => .error e
            | .ok (fin, st4) =>
              .ok (fin, ⟨st4.created, st4.temps ++ [fin], st4.dlIdx, st4.ffIdx⟩)
        match afterConcat with
        | .error e => .error e
        | .ok (concatVid, st5) =>
          let afterStitch : Except OFail (Path × St) :=
            if localNarr.isSome || localMusic.isSome then
              if env.ffOk st5.ffIdx then
                .ok (Path.stitchedTemp,
                  ⟨st5.created ++ [Path.stitchedTemp], st5.temps ++ [Path.stitchedTemp],
                   st5.dlIdx, st5.ffIdx + 1⟩)
              else .error ("Failed to stitch video with audio", true,
                ⟨st5.created, st5.temps, st5.dlIdx, st5.ffIdx + 1⟩)
            else .ok (concatVid, st5)
          match afterStitch with
          | .error e => .error e
          | .ok (finalPath, st6) =>
            if env.upOk then .ok (finalPath, st6)
            else .error ("Upload failed", true, st6)

/-- Terminal status of a run: the success dict or the error dict. -/
inductive OStatus
  | success
  | errorStatus (detail : String)
deriving DecidableEq, Repr

/-- Observable outcome of a run: status, every file created, the recorded
temp_files, and the files actually removed. -/
structure ORun where
  status : OStatus
  created : List Path
  temps : List Path
  deleted : List Path
deriving DecidableEq, Repr

/-- process_videos_with_ffmpeg_mcp (agent.py lines 261-389).  Empty input is
rejected up front.  On success the cleanup loop (lines 371-378) removes each
recorded temp_file, each removal wrapped in its own try/except so a removal
failure (rmOk false) is only logged; on a typed failure or a raised-and-caught
fault the function returns before the cleanup loop, removing nothing. -/
def process_videos_with_ffmpeg_mcp (env : OEnv) (rmOk : Path → Bool)
    (videoUris : List VUri) (narrationPath musicPath : Option VUri) : ORun :=
  if videoUris.isEmpty then ⟨.errorStatus "No video URIs provided", [], [], []⟩
  else
    match pipelineBody env videoUris narrationPath musicPath with
    | .ok (_, st) => ⟨.success, st.created, st.temps, st.temps.filter rmOk⟩
    | .error (d, raised, st) =>
      ⟨.errorStatus (if raised then "Video processing failed: " ++ d else d),
       st.created, st.temps, []⟩

/- Section: upload destination, agent.py lines 363-366.  The base name is
   built from the number of input clips; the unique suffix is a fresh
   uuid4().hex; the logical output area is the artisan_videos prefix of the
   configured bucket. -/

/-- Base name of the uploaded artifact: processed_video_N_clips where N is
the number of input video locations. -/
def uploadBaseName (videoUris : List VUri) : String :=
  "processed_video_" ++ toString videoUris.length ++ "_clips"

/-- Full destination URI of the uploaded artifact. -/
def uploadDestination (bucket : String) (videoUris : List VUri) (uuidHex : String) : String :=
  "gs://" ++ bucket ++ "/artisan_videos/" ++ uploadBaseName videoUris ++ "_" ++ uuidHex ++ ".mp4"

/- Section: auxiliary notions used by the theorems below. -/

/-- Effective music duration of the mixdown branches that involve music:
min(probed music duration, probed video duration). -/
def effDur (env : StitchEnv) : ℚ := min env.musicDur env.videoDur

/-- The fade window as a function of the selected fade duration and the
effective duration: emitted only when the duration is strictly below the
effective duration, starting at max(0, effective - duration). -/
def fadeWindow (d eff : ℚ) : Option (ℚ × ℚ) :=
  if d < eff then some (max 0 (eff - d), d) else none

/-- A command list is chained from a starting path when each command's first
input is the previous command's output (the accumulated video). -/
def chainedFrom : Path → List FFCmd → Prop
  | _, [] => True
  | cur, c :: cs => c.in1 = cur ∧ chainedFrom c.out cs

/-- Environment in which every external call succeeds. -/
def envAllOk : OEnv := ⟨fun _ => true, fun _ => true, fun _ => true, true⟩

/-- Environment in which everything succeeds except the final upload. -/
def envUploadFails : OEnv := ⟨fun _ => true, fun _ => true, fun _ => true, false⟩

/-- Removal policy under which every removal succeeds. -/
def rmAll : Path → Bool := fun _ => true

end ArtisanVideo

/- Theorems.  Shared helper lemmas first, then one theorem per claim (with
   counterexamples and witnesses where the claim's status needs them). -/

namespace ArtisanVideo

/-- Every decimal value the scanner extracts is non-negative: it is built
from natural-number digit runs. -/
theorem scanDec_nonneg : ∀ (l : List Char) (v : Nat) (q : ℚ), scanDec v l = some q → 0 ≤ q := by
  intro l
  induction l with
  | nil => intro v q h; simp [scanDec] at h
  | cons c rest ih =>
    intro v q h
    simp only [scanDec] at h
    split_ifs at h with h1 h2 h3
    · exact ih _ _ h
    · rw [Option.some_inj] at h
      subst h
      positivity
    · exact ih _ _ h

/-- Every decimal override the search produces is non-negative. -/
theorem searchDec_nonneg (key : List Char) :
    ∀ (l : List Char) (q : ℚ), searchDec key l = some q → 0 ≤ q := by
  intro l
  induction l with
  | nil => intro q h; simp [searchDec] at h
  | cons c rest ih =>
    intro q h
    simp only [searchDec] at h
    split_ifs at h with h1
    · cases hs : scanDec 0 ((c :: rest).drop key.length) with
      | none => rw [hs] at h; exact ih _ h
      | some v =>
        rw [hs] at h
        simp only [Option.some_inj] at h
        subst h
        exact scanDec_nonneg _ _ _ hs
    · exact ih _ h

/-- Every music keyword rule yields a non-negative gain. -/
theorem musicKw_nonneg (p : List Char) : 0 ≤ musicKw p := by
  unfold musicKw; split_ifs <;> norm_num

/-- Every voiceover keyword rule yields a non-negative gain. -/
theorem voiceKw_nonneg (p : List Char) : 0 ≤ voiceKw p := by
  unfold voiceKw; split_ifs <;> norm_num

/-- Every video-audio keyword rule yields a non-negative gain. -/
theorem videoKw_nonneg (p : List Char) : 0 ≤ videoKw p := by
  unfold videoKw; split_ifs <;> norm_num

/-- Numeric overrides preserve non-negativity of a channel's gain. -/
theorem overrideGain_nonneg (pct : Option Nat) (dec : Option ℚ) (base : ℚ)
    (hdec : ∀ q, dec = some q → 0 ≤ q) (hbase : 0 ≤ base) :
    0 ≤ overrideGain pct dec base := by
  cases dec with
  | some q => exact hdec q rfl
  | none =>
    cases pct with
    | some n => simp only [overrideGain]; positivity
    | none => simpa [overrideGain] using hbase

/-- Each command the concatenation fold emits takes the next pending clip as
its second input, in order. -/
theorem concatFold_map_in2 (t : String) (d o : ℚ) :
    ∀ (rest : List Path) (cur : Path) (i : Nat),
      ((concatFold t d o cur rest i).2).map FFCmd.in2 = rest := by
  intro rest
  induction rest with
  | nil => intro cur i; rfl
  | cons v vs ih =>
    intro cur i
    simp only [concatFold, List.map_cons]
    rw [ih]

/-- Each command the concatenation fold emits carries the caller's fixed
transition type, duration and offset, unchanged at every step. -/
theorem concatFold_params (t : String) (d o : ℚ) :
    ∀ (rest : List Path) (cur : Path) (i : Nat),
      ((concatFold t d o cur rest i).2).map (fun c => (c.ttype, c.tdur, c.toff)) =
        rest.map (fun _ => (t, d, o)) := by
  intro rest
  induction rest with
  | nil => intro cur i; rfl
  | cons v vs ih =>
    intro cur i
    simp only [concatFold, List.map_cons]
    rw [ih]

/-- The commands the concatenation fold emits are chained: each takes the
previous accumulated output as its first input. -/
theorem concatFold_chained (t : String) (d o : ℚ) :
    ∀ (rest : List Path) (cur : Path) (i : Nat),
      chainedFrom cur ((concatFold t d o cur rest i).2) := by
  intro rest
  induction rest with
  | nil => intro cur i; trivial
  | cons v vs ih =>
    intro cur i
    exact ⟨rfl, ih _ _⟩

/-- In the music+voiceover branch the music chain's fade window is the
keyword-selected duration applied through the emit-or-skip rule. -/
theorem musicFadeOf_both (env : StitchEnv) (p : List Char) (vp mp vop : Path) :
    musicFadeOf (stitch_video_with_audio env vp (some mp) (some vop) p) =
      some (fadeWindow (kwFade p (effDur env)) (effDur env)) := by
  simp only [stitch_video_with_audio, musicFadeOf, effDur, fadeWindow]
  split_ifs with h
  · simp [List.find?, isMusicChain, h]
  · simp [List.find?, isMusicChain, h]

/-- In the music-only branch the music chain's fade window always uses ratio
0.3 with cap 5, whatever the prompt says. -/
theorem musicFadeOf_musicOnly (env : StitchEnv) (p : List Char) (vp mp : Path) :
    musicFadeOf (stitch_video_with_audio env vp (some mp) none p) =
      some (fadeWindow (min 5 (effDur env * 0.3)) (effDur env)) := by
  simp only [stitch_video_with_audio, musicFadeOf, effDur, fadeWindow]
  split_ifs with h
  · simp [List.find?, isMusicChain, h]
  · simp [List.find?, isMusicChain, h]

/-- Claim C1 counterexample: a fully successful three-clip run creates the
intermediate fold output _transition_1.mp4 but never deletes it (only the
final accumulated file is recorded in temp_files), and a run whose upload
fails deletes nothing at all even though it downloaded a temporary - so not
every temporary the run created is deleted on every exit path. -/
theorem c1_counterexample :
    ((process_videos_with_ffmpeg_mcp envAllOk rmAll
        [VUri.loc "a.mp4", VUri.loc "b.mp4", VUri.loc "c.mp4"] none none).status = .success ∧
      Path.transitionTemp 1 ∈ (process_videos_with_ffmpeg_mcp envAllOk rmAll
        [VUri.loc "a.mp4", VUri.loc "b.mp4", VUri.loc "c.mp4"] none none).created ∧
      Path.transitionTemp 1 ∉ (process_videos_with_ffmpeg_mcp envAllOk rmAll
        [VUri.loc "a.mp4", VUri.loc "b.mp4", VUri.loc "c.mp4"] none none).deleted) ∧
    (Path.downloadTemp 0 ∈ (process_videos_with_ffmpeg_mcp envUploadFails rmAll
        [VUri.remote "gs://b/v.mp4"] none none).created ∧
      (process_videos_with_ffmpeg_mcp envUploadFails rmAll
        [VUri.remote "gs://b/v.mp4"] none none).deleted = []) := by
  decide

/-- Claim C1 (amended): cleanup runs only on the success exit, where it
submits exactly the recorded temp_files for removal; a removal failure never
changes the reported status; every non-success exit (typed failure or raised
fault) deletes nothing; and only recorded temporaries are ever deleted. -/
theorem c1_cleanup_policy (env : OEnv) (rm rm2 : Path → Bool) (vs : List VUri)
    (n m : Option VUri) :
    (process_videos_with_ffmpeg_mcp env rm vs n m).status =
      (process_videos_with_ffmpeg_mcp env rm2 vs n m).status ∧
    ((process_videos_with_ffmpeg_mcp env rm vs n m).status = .success →
      (process_videos_with_ffmpeg_mcp env rm vs n m).deleted =
        ((process_videos_with_ffmpeg_mcp env rm vs n m).temps).filter rm) ∧
    (∀ d, (process_videos_with_ffmpeg_mcp env rm vs n m).status = .errorStatus d →
      (process_videos_with_ffmpeg_mcp env rm vs n m).deleted = []) ∧
    ∀ x ∈ (process_videos_with_ffmpeg_mcp env rm vs n m).deleted,
      x ∈ (process_videos_with_ffmpeg_mcp env rm vs n m).temps := by
  unfold process_videos_with_ffmpeg_mcp
  split_ifs with hempty
  · simp
  · rcases hp : pipelineBody env vs n m with ⟨d, raised, st⟩ | ⟨fin, st⟩
    · simp [hp]
    · simp only [hp]
      refine ⟨by simp, by simp, by simp, ?_⟩
      intro x hx
      exact List.mem_of_mem_filter hx

/-- Claim C1 witness: a concrete successful single-clip run deletes exactly
the recorded temp_files. -/
theorem c1_cleanup_policy_witness :
    (process_videos_with_ffmpeg_mcp envAllOk rmAll [VUri.loc "a.mp4"] none none).deleted =
      ((process_videos_with_ffmpeg_mcp envAllOk rmAll [VUri.loc "a.mp4"] none none).temps).filter
        rmAll :=
  (c1_cleanup_policy envAllOk rmAll rmAll [VUri.loc "a.mp4"] none none).2.1 (by decide)

/-- Claim C2 counterexample: for two 8-second clips with the orchestrator's
parameters (duration 2, offset 5), the single emitted command starts the
crossfade at the fixed offset 5 - not at the junction 8 - 2 = 6 - and the
xfade output lasts 5 + 8 = 13 seconds instead of the junction-preserving
8 + 8 - 2 = 14, so trailing content of the accumulated video is dropped. -/
theorem c2_counterexample :
    (concatenate_videos_with_transition [Path.input "a", Path.input "b"] "fade" 2 5 =
      .ok (Path.transitionTemp 1,
        [⟨Path.input "a", Path.input "b", "fade", 2, 5, Path.transitionTemp 1⟩])) ∧
    junctionOffset 8 2 = 6 ∧ ((5 : ℚ) ≠ 6) ∧
    xfadeOutDur 5 8 = 13 ∧ junctionOutDur 8 8 2 = 14 ∧ ((13 : ℚ) ≠ 14) := by
  refine ⟨rfl, by norm_num [junctionOffset], by norm_num, by norm_num [xfadeOutDur],
    by norm_num [junctionOutDur], by norm_num⟩

/-- Claim C2 (amended): with two or more videos the fold runs left-to-right -
each emitted command takes the previous accumulated output as its first input
and the next clip, in input order, as its second - but every command carries
the caller's fixed transition offset rather than a junction-derived one. -/
theorem c2_fold_structure (t : String) (d o : ℚ) (v w : Path) (rest : List Path) :
    ∃ fin cmds, concatenate_videos_with_transition (v :: w :: rest) t d o = .ok (fin, cmds) ∧
      cmds.map FFCmd.in2 = w :: rest ∧
      chainedFrom v cmds ∧
      cmds.map (fun c => (c.ttype, c.tdur, c.toff)) = (w :: rest).map (fun _ => (t, d, o)) :=
  ⟨(concatFold t d o v (w :: rest) 1).1, (concatFold t d o v (w :: rest) 1).2, rfl,
    concatFold_map_in2 t d o (w :: rest) v 1, concatFold_chained t d o (w :: rest) v 1,
    concatFold_params t d o (w :: rest) v 1⟩

/-- Claim C3: whenever at least one audio track is present, the video
duration is probed exactly once, every music and voiceover chain is trimmed
to the window from 0 to the probed duration D in every branch, and under a
faithful probe the muxed output's duration equals D. -/
theorem c3_trim_probe_duration (env : StitchEnv) (vp : Path) (m vo : Option Path)
    (p : List Char) (haud : m.isSome = true ∨ vo.isSome = true) :
    (stitch_video_with_audio env vp m vo p).videoProbeCalls = 1 ∧
    (∀ c ∈ (stitch_video_with_audio env vp m vo p).chains,
      c.src ≠ StreamSrc.videoNative → c.trim = some (0, env.videoDur)) ∧
    (∀ native : StreamSrc → ℚ, native .videoNative = env.videoDur →
      planOutDur (stitch_video_with_audio env vp m vo p) native = env.videoDur) := by
  cases m with
  | none =>
    cases vo with
    | none => simp at haud
    | some v =>
      refine ⟨rfl, ?_, ?_⟩
      · intro c hc hsrc
        simp only [stitch_video_with_audio, List.mem_cons, List.not_mem_nil, or_false] at hc
        rcases hc with rfl | rfl
        · exact absurd rfl hsrc
        · rfl
      · intro native hn
        simp [stitch_video_with_audio, planOutDur, chainLen, hn]
  | some mm =>
    cases vo with
    | none =>
      refine ⟨rfl, ?_, ?_⟩
      · intro c hc hsrc
        simp only [stitch_video_with_audio, List.mem_cons, List.not_mem_nil, or_false] at hc
        rcases hc with rfl | rfl
        · exact absurd rfl hsrc
        · split_ifs <;> rfl
      · intro native hn
        simp [stitch_video_with_audio, planOutDur, chainLen, hn]
    | some v =>
      refine ⟨rfl, ?_, ?_⟩
      · intro c hc hsrc
        simp only [stitch_video_with_audio, List.mem_cons, List.not_mem_nil, or_false] at hc
        rcases hc with rfl | rfl | rfl
        · exact absurd rfl hsrc
        · split_ifs <;> rfl
        · rfl
      · intro native hn
        simp [stitch_video_with_audio, planOutDur, chainLen, hn]

/-- Claim C3 witness: a concrete music-only mixdown with a faithful probe of
a 10-second video yields a 10-second output. -/
theorem c3_trim_probe_duration_witness :
    planOutDur (stitch_video_with_audio ⟨10, 7⟩ (Path.input "v")
      (some (Path.input "m")) none []) (fun _ => 10) = 10 :=
  (c3_trim_probe_duration ⟨10, 7⟩ (Path.input "v") (some (Path.input "m")) none []
    (Or.inl rfl)).2.2 (fun _ => 10) rfl

/-- Claim C4 counterexample: the code's fade duration min(cap, ratio x eff)
admits no fixed strictly-positive absolute floor: for any candidate floor
and cap, evaluating at effective duration equal to the floor already
disagrees, so the claimed clamp with a lower bound does not describe the
code. -/
theorem c4_counterexample :
    ¬ ∃ floor cap : ℚ, 0 < floor ∧
      ∀ eff : ℚ, 0 ≤ eff → kwFade [] eff = max floor (min cap (eff * 0.3)) := by
  rintro ⟨m, M, hm, h⟩
  have h1 := h m hm.le
  have hk : kwFade [] m = min 5 (m * 0.3) := by
    simp only [kwFade]
    rw [if_neg (by decide), if_neg (by decide)]
  rw [hk] at h1
  have l1 : min 5 (m * 0.3) ≤ m * 0.3 := min_le_right _ _
  have l2 : m ≤ max m (min M (m * 0.3)) := le_max_left _ _
  have l3 : m * 0.3 < m := by nlinarith
  linarith

/-- Claim C4 (amended): whenever music is present the fade duration is
min(cap, ratio x effective duration) - capped above only, with no absolute
floor - the window starts at max(0, eff - duration), the fade is skipped
exactly when the duration does not stay below the effective duration, and an
emitted fade always fits the clip: start + duration = eff with duration
strictly below eff. -/
theorem c4_fade_window (env : StitchEnv) (p : List Char) (vp mp vop : Path) :
    musicFadeOf (stitch_video_with_audio env vp (some mp) (some vop) p) =
      some (fadeWindow (kwFade p (effDur env)) (effDur env)) ∧
    musicFadeOf (stitch_video_with_audio env vp (some mp) none p) =
      some (fadeWindow (min 5 (effDur env * 0.3)) (effDur env)) ∧
    (∀ s q d eff : ℚ, fadeWindow d eff = some (s, q) →
      0 ≤ s ∧ s + q = eff ∧ q < eff ∧ q = d) := by
  refine ⟨musicFadeOf_both env p vp mp vop, musicFadeOf_musicOnly env p vp mp, ?_⟩
  intro s q d eff h
  rw [fadeWindow] at h
  split_ifs at h with hlt
  · rw [Option.some_inj, Prod.mk.injEq] at h
    obtain ⟨hs, hq⟩ := h
    subst hq
    subst hs
    have hmax : max (0 : ℚ) (eff - d) = eff - d := max_eq_right (by linarith)
    rw [hmax]
    exact ⟨by linarith, by ring, hlt, rfl⟩

/-- Claim C4 witness: the window of a 5-second fade over a 20-second
effective duration starts at 15 and fits the clip. -/
theorem c4_fade_window_witness :
    (0 : ℚ) ≤ 15 ∧ (15 : ℚ) + 5 = 20 ∧ (5 : ℚ) < 20 ∧ (5 : ℚ) = 5 :=
  (c4_fade_window ⟨30, 20⟩ [] (Path.input "v") (Path.input "m") (Path.input "n")).2.2 15 5 5 20
    (by rw [fadeWindow, if_pos (by norm_num : (5 : ℚ) < 20),
          max_eq_right (by norm_num : (0 : ℚ) ≤ 20 - 5)]
        norm_num)

/-- Claim C5: the volume parser is deterministic with keyword-then-numeric
precedence - "clear voice, soft music" yields voiceover 1.2, music 0.2 and
the default video gain 0.3; "music at 25%" yields music 0.25; and the empty
directive yields exactly the defaults 0.3, 0.4, 1.0. -/
theorem c5_parser_examples :
    parse_volume_from_prompt ("clear voice, soft music".data) = ⟨0.3, 0.2, 1.2⟩ ∧
    (parse_volume_from_prompt ("music at 25%".data)).music = 0.25 ∧
    parse_volume_from_prompt ("".data) = ⟨0.3, 0.4, 1.0⟩ := by
  refine ⟨?_, ?_, ?_⟩
  · have h1 : searchPct ("video".data) (lowerL ("clear voice, soft music".data)) = none := by
      decide
    have h2 : searchPct ("music".data) (lowerL ("clear voice, soft music".data)) = none := by
      decide
    have h3 : searchPct ("voice".data) (lowerL ("clear voice, soft music".data)) = none := by
      decide
    have h4 : searchDec ("video".data) (lowerL ("clear voice, soft music".data)) = none := by
      decide
    have h5 : searchDec ("music".data) (lowerL ("clear voice, soft music".data)) = none := by
      decide
    have h6 : searchDec ("voice".data) (lowerL ("clear voice, soft music".data)) = none := by
      decide
    have k1 : videoKw (lowerL ("clear voice, soft music".data)) = 0.3 := by
      simp only [videoKw]
      rw [if_neg (by decide), if_neg (by decide), if_neg (by decide)]
    have k2 : musicKw (lowerL ("clear voice, soft music".data)) = 0.2 := by
      simp only [musicKw]
      rw [if_neg (by decide), if_pos (by decide)]
    have k3 : voiceKw (lowerL ("clear voice, soft music".data)) = 1.2 := by
      simp only [voiceKw]
      rw [if_pos (by decide)]
    simp only [parse_volume_from_prompt, overrideGain, h1, h2, h3, h4, h5, h6, k1, k2, k3]
  · have h2 : searchPct ("music".data) (lowerL ("music at 25%".data)) = some 25 := by decide
    have h5 : searchDec ("music".data) (lowerL ("music at 25%".data)) = none := by decide
    simp only [parse_volume_from_prompt, overrideGain, h2, h5]
    norm_num
  · have h1 : searchPct ("video".data) (lowerL ("".data)) = none := by decide
    have h2 : searchPct ("music".data) (lowerL ("".data)) = none := by decide
    have h3 : searchPct ("voice".data) (lowerL ("".data)) = none := by decide
    have h4 : searchDec ("video".data) (lowerL ("".data)) = none := by decide
    have h5 : searchDec ("music".data) (lowerL ("".data)) = none := by decide
    have h6 : searchDec ("voice".data) (lowerL ("".data)) = none := by decide
    have k1 : videoKw (lowerL ("".data)) = 0.3 := by
      simp only [videoKw]
      rw [if_neg (by decide), if_neg (by decide), if_neg (by decide)]
    have k2 : musicKw (lowerL ("".data)) = 0.4 := by
      simp only [musicKw]
      rw [if_neg (by decide), if_neg (by decide), if_neg (by decide), if_neg (by decide)]
    have k3 : voiceKw (lowerL ("".data)) = 1.0 := by
      simp only [voiceKw]
      rw [if_neg (by decide), if_neg (by decide), if_neg (by decide), if_neg (by decide)]
    simp only [parse_volume_from_prompt, overrideGain, h1, h2, h3, h4, h5, h6, k1, k2, k3]

/-- Claim C6 counterexample: with the same prompt "dramatic fade" and the
same probed durations (video 30 s, music 20 s), the music+voiceover branch
fades over 8 seconds (keyword ratio 0.4, cap 8) while the music-only branch
fades over 5 seconds (fixed ratio 0.3, cap 5): the keyword-selected ratio is
not applied in the music-only case. -/
theorem c6_counterexample :
    musicFadeOf (stitch_video_with_audio ⟨30, 20⟩ (Path.input "v")
        (some (Path.input "m")) (some (Path.input "n")) ("dramatic fade".data)) =
      some (some (12, 8)) ∧
    musicFadeOf (stitch_video_with_audio ⟨30, 20⟩ (Path.input "v")
        (some (Path.input "m")) none ("dramatic fade".data)) =
      some (some (15, 5)) ∧
    ((8 : ℚ) ≠ 5) := by
  have he : effDur ⟨30, 20⟩ = 20 := by
    rw [effDur]
    exact min_eq_left (by norm_num)
  refine ⟨?_, ?_, by norm_num⟩
  · rw [musicFadeOf_both, he]
    rw [show kwFade ("dramatic fade".data) 20 = 8 by
      simp only [kwFade]
      rw [if_pos (by decide), show (20 : ℚ) * 0.4 = 8 by norm_num, min_self]]
    rw [fadeWindow, if_pos (by norm_num : (8 : ℚ) < 20)]
    rw [max_eq_right (by norm_num : (0 : ℚ) ≤ 20 - 8)]
    norm_num
  · rw [musicFadeOf_musicOnly, he]
    rw [show min (5 : ℚ) (20 * 0.3) = 5 by
      rw [show (20 : ℚ) * 0.3 = 6 by norm_num]
      exact min_eq_left (by norm_num)]
    rw [fadeWindow, if_pos (by norm_num : (5 : ℚ) < 20)]
    rw [max_eq_right (by norm_num : (0 : ℚ) ≤ 20 - 5)]
    norm_num

/-- Claim C6 (amended): the keyword-selected fade ratio is applied only in
the music+voiceover branch; the music-only branch ignores the prompt
entirely and always fades with ratio 0.3 and cap 5. -/
theorem c6_fade_ratio_by_branch (env : StitchEnv) (p q : List Char) (vp mp vop : Path) :
    musicFadeOf (stitch_video_with_audio env vp (some mp) (some vop) p) =
      some (fadeWindow (kwFade p (effDur env)) (effDur env)) ∧
    musicFadeOf (stitch_video_with_audio env vp (some mp) none p) =
      some (fadeWindow (min 5 (effDur env * 0.3)) (effDur env)) ∧
    musicFadeOf (stitch_video_with_audio env vp (some mp) none p) =
      musicFadeOf (stitch_video_with_audio env vp (some mp) none q) :=
  ⟨musicFadeOf_both env p vp mp vop, musicFadeOf_musicOnly env p vp mp,
   (musicFadeOf_musicOnly env p vp mp).trans (musicFadeOf_musicOnly env q vp mp).symm⟩

/-- Claim C7 counterexample: when the ffprobe binary is missing the
subprocess invocation raises FileNotFoundError, which is outside the caught
tuple (CalledProcessError, KeyError, ValueError), so both probes propagate
the failure instead of returning their defaults. -/
theorem c7_counterexample :
    get_audio_duration (.fail .fileNotFoundError) = .error .fileNotFoundError ∧
    get_video_duration (.fail .fileNotFoundError) = .error .fileNotFoundError :=
  ⟨rfl, rfl⟩

/-- Claim C7 (amended): for every failure of the caught classes - process
failure, missing JSON key, or a ValueError family parse failure - the probes
return the fixed defaults, 30.0 seconds for audio and 15.0 for video. -/
theorem c7_probe_defaults (e : ProbeErr) (h : probeCaught e = true) :
    get_audio_duration (.fail e) = .ok 30 ∧ get_video_duration (.fail e) = .ok 15 := by
  simp [get_audio_duration, get_video_duration, h]

/-- Claim C7 witness: a failed ffprobe process yields the defaults. -/
theorem c7_probe_defaults_witness :
    get_audio_duration (.fail .calledProcessError) = .ok 30 ∧
    get_video_duration (.fail .calledProcessError) = .ok 15 :=
  c7_probe_defaults .calledProcessError rfl

/-- Claim C8 counterexample: the upload base name is not a function of the
first input - two runs with the same first input but different clip counts
produce different base names, so no function of the first input can describe
it. -/
theorem c8_counterexample :
    ¬ ∃ f : VUri → String, ∀ l : List VUri, l ≠ [] →
      uploadBaseName l = f (l.headD (.loc "")) := by
  rintro ⟨f, hf⟩
  have h1 := hf [VUri.loc "v.mp4"] (by simp)
  have h2 := hf [VUri.loc "v.mp4", VUri.loc "w.mp4"] (by simp)
  exact absurd (h1.trans h2.symm) (by decide)

/-- Claim C8 (amended): the destination is the fixed output area plus a base
name derived from the number of input clips plus the fresh unique suffix -
two runs over the same inputs differ only in the suffix, and the base name is
a function of the input count. -/
theorem c8_upload_destination (bucket : String) (l l2 : List VUri) (u u2 : String) :
    (∃ pre, uploadDestination bucket l u = pre ++ u ++ ".mp4" ∧
            uploadDestination bucket l u2 = pre ++ u2 ++ ".mp4") ∧
    (l.length = l2.length → uploadDestination bucket l u = uploadDestination bucket l2 u) := by
  constructor
  · exact ⟨"gs://" ++ bucket ++ "/artisan_videos/" ++ uploadBaseName l ++ "_", rfl, rfl⟩
  · intro h
    simp only [uploadDestination, uploadBaseName, h]

/-- Claim C8 witness: two single-clip runs with different first inputs share
the same destination up to the unique suffix. -/
theorem c8_upload_destination_witness :
    uploadDestination "b" [VUri.loc "a.mp4"] "u" = uploadDestination "b" [VUri.loc "c.mp4"] "u" :=
  (c8_upload_destination "b" [VUri.loc "a.mp4"] [VUri.loc "c.mp4"] "u" "u").2 rfl

/-- Claim C9: concatenation of the empty list fails with the ValueError the
spec calls InsufficientInput, and concatenation of a one-element list
returns that video itself unchanged, emitting no ffmpeg command and creating
no new file. -/
theorem c9_concat_base_cases (t : String) (d o : ℚ) (v : Path) :
    concatenate_videos_with_transition [] t d o = .error "At least 1 video path is required" ∧
    concatenate_videos_with_transition [v] t d o = .ok (v, []) :=
  ⟨rfl, rfl⟩

/-- Claim C10: for every input string the parser terminates (it is a total
function), returns a record with exactly the three channels, each mapped to
a non-negative gain, and numeric overrides carry no upper clamp: "voice at
500%" yields voiceover gain 5. -/
theorem c10_parser_total_nonneg :
    (∀ s : List Char, 0 ≤ (parse_volume_from_prompt s).video ∧
      0 ≤ (parse_volume_from_prompt s).music ∧
      0 ≤ (parse_volume_from_prompt s).voiceover) ∧
    (parse_volume_from_prompt ("voice at 500%".data)).voiceover = 5 := by
  constructor
  · intro s
    refine ⟨?_, ?_, ?_⟩
    · show 0 ≤ overrideGain (searchPct ("video".data) (lowerL s))
        (searchDec ("video".data) (lowerL s)) (videoKw (lowerL s))
      exact overrideGain_nonneg _ _ _ (fun q h => searchDec_nonneg _ _ _ h) (videoKw_nonneg _)
    · show 0 ≤ overrideGain (searchPct ("music".data) (lowerL s))
        (searchDec ("music".data) (lowerL s)) (musicKw (lowerL s))
      exact overrideGain_nonneg _ _ _ (fun q h => searchDec_nonneg _ _ _ h) (musicKw_nonneg _)
    · show 0 ≤ overrideGain (searchPct ("voice".data) (lowerL s))
        (searchDec ("voice".data) (lowerL s)) (voiceKw (lowerL s))
      exact overrideGain_nonneg _ _ _ (fun q h => searchDec_nonneg _ _ _ h) (voiceKw_nonneg _)
  · have h1 : searchPct ("voice".data) (lowerL ("voice at 500%".data)) = some 500 := by decide
    have h2 : searchDec ("voice".data) (lowerL ("voice at 500%".data)) = none := by decide
    simp only [parse_volume_from_prompt, overrideGain, h1, h2]
    norm_num

end ArtisanVideo
